import Mathlib

/-!
Verification development for the Jawala village business-directory client.

Embedded here are the two parts of the code the claims are about:

* the service worker `src/public/sw.js` (activate-time cache cleanup and the
  fetch handler with its Supabase exclusion, network-first and cache-first
  branches), and
* the data-synchronization layer: the real-time change-stream handler of
  `App.tsx` (`src/unnamed/part_000`, lines 787-827) together with the cache
  service it calls.  The cache service module itself (`cacheService.ts`) is not
  part of the sources at hand, so its operations (`smartSync`,
  `updateCachedBusiness`, `deleteCachedBusiness`, `setLocalVersion`) are
  modelled from the specification (spec.md sections 4.1-4.3).

Machine integers do not occur on these paths; HTTP statuses and timestamps are
modelled as `Nat`, strings as Lean `String`.  Promise rejection is modelled
with `Option` results and an explicit `FetchOutcome.reject` constructor.
-/

namespace Jawala

/-! ## Basic string helpers

`sw.js` classifies requests with `String.prototype.startsWith` and
`String.prototype.includes`.  We model both on the character lists underlying
Lean strings, so that concrete instances reduce in the kernel. -/

/-- `occursIn sub s` models JavaScript `s.includes(sub)` on character lists:
true iff `sub` occurs contiguously inside `s`. -/
def occursIn (sub : List Char) : List Char → Bool
  | [] => sub.isEmpty
  | c :: rest => sub.isPrefixOf (c :: rest) || occursIn sub rest

/-- Model of JavaScript `s.includes(sub)` for strings. -/
def strIncludes (s sub : String) : Bool := occursIn sub.data s.data

/-- Model of JavaScript `s.startsWith(pre)` for strings. -/
def strStarts (s pre : String) : Bool := pre.data.isPrefixOf s.data

/-! ## Service worker (`src/public/sw.js`) -/

/-- The current precache generation name (`CACHE_NAME` in sw.js, line 2). -/
def CACHE_NAME : String := "jawala-business-v1"

/-- The current runtime cache generation name (`RUNTIME_CACHE` in sw.js,
line 3). -/
def RUNTIME_CACHE : String := "jawala-runtime-v1"

/-- A fetch-event request, reduced to the fields `sw.js` inspects:
`request.method`, `url.origin` and `url.pathname`. -/
structure Request where
  method : String
  origin : String
  pathname : String
deriving DecidableEq, Repr

/-- An HTTP response: status code plus an abstract body. -/
structure Response where
  status : Nat
  body : String
deriving DecidableEq, Repr

/-- The runtime cache, keyed by request exactly as the Cache API keys
`cache.put(request, response)`. -/
abbrev RuntimeCache := List (Request × Response)

/-- Model of `caches.match(request)`: the stored response for this exact
request, if any. -/
def cacheMatch : RuntimeCache → Request → Option Response
  | [], _ => none
  | p :: rest, r => if p.1 = r then some p.2 else cacheMatch rest r

/-- Model of `cache.put(request, response)`: overwrite the entry keyed by this
exact request. -/
def cachePut (c : RuntimeCache) (r : Request) (resp : Response) : RuntimeCache :=
  (r, resp) :: c.filter (fun p => decide (p.1 ≠ r))

/-- Outcome of the fetch event listener for one request:
`passThrough` models returning without calling `event.respondWith` (the
request goes live to the network); `respond o` models `event.respondWith`
with a promise that resolves to `o` (`none` is a promise resolved with
`undefined`); `reject` models `event.respondWith` with a rejected promise. -/
inductive FetchOutcome
  | passThrough
  | respond (resp : Option Response)
  | reject
deriving DecidableEq, Repr

/-- Classification on sw.js lines 62-64: network-first for `/api/` paths and
the dynamic bundle assets (`assets/index-*`, `assets/cacheService-*`). -/
def isNetworkFirst (r : Request) : Bool :=
  strStarts r.pathname "/api/" ||
    strIncludes r.pathname "assets/index-" ||
    strIncludes r.pathname "assets/cacheService-"

/-- The fetch event listener of sw.js (lines 49-104).  `net req` is the result
of `fetch(request)`: `some resp` when the fetch resolves, `none` when it
rejects (network failure).  Returns the outcome delivered to the page and the
runtime cache after any write-through. -/
def handleFetch (cache : RuntimeCache) (net : Request → Option Response)
    (req : Request) : FetchOutcome × RuntimeCache :=
  if req.method ≠ "GET" then (.passThrough, cache)
  else if strIncludes req.origin "supabase.co" then (.passThrough, cache)
  else if isNetworkFirst req then
    match net req with
    | some resp =>
      if resp.status = 200 then (.respond (some resp), cachePut cache req resp)
      else (.respond (some resp), cache)
    | none => (.respond (cacheMatch cache req), cache)
  else
    match cacheMatch cache req with
    | some cached => (.respond (some cached), cache)
    | none =>
      match net req with
      | some resp =>
        if resp.status = 200 then (.respond (some resp), cachePut cache req resp)
        else (.respond (some resp), cache)
      | none => (.reject, cache)

/-- The deletion list computed by the activate listener (sw.js line 38):
every cache name other than the two current generations. -/
def activateDeletes (names : List String) : List String :=
  names.filter (fun n => decide (n ≠ CACHE_NAME) && decide (n ≠ RUNTIME_CACHE))

/-- The cache names that remain after the activate listener has deleted
everything on its deletion list (sw.js lines 35-44). -/
def afterActivate (names : List String) : List String :=
  names.filter (fun n => !decide (n ∈ activateDeletes names))

/-! ## Data model (spec section 3, `types.ts`) -/

/-- A business record; the synchronization layer only ever inspects `id`, the
remaining fields are carried as opaque content. -/
structure Business where
  id : String
  shopName : String
  ownerName : String
  contactNumber : String
  category : String
deriving DecidableEq, Repr

/-- A category record. -/
structure Category where
  id : String
  name : String
  icon : String
deriving DecidableEq, Repr

/-- The lightweight version token returned by `SupabaseService.getDataVersion`
(spec section 6): counts plus an opaque fingerprint. -/
structure RemoteVersion where
  businessCount : Nat
  categoryCount : Nat
  fingerprint : String
deriving DecidableEq, Repr

/-- The persisted `DatasetVersion` (spec section 3): the remote token plus the
`last_sync` timestamp the caller attaches via `Date.now()`. -/
structure DatasetVersion where
  businessCount : Nat
  categoryCount : Nat
  fingerprint : String
  last_sync : Nat
deriving DecidableEq, Repr

/-- Attach a sync timestamp to a remote token: the spread
`\x7b ...version, last_sync: Date.now() \x7d` used at both call sites in
App.tsx (lines 731-734 and 821-824). -/
def withSync (v : RemoteVersion) (now : Nat) : DatasetVersion :=
  { businessCount := v.businessCount, categoryCount := v.categoryCount,
    fingerprint := v.fingerprint, last_sync := now }

/-- The state persisted by the cache service: the Entity Cache (businesses and
categories) plus the Version Store record (spec sections 4.1-4.2). -/
structure CacheState where
  businesses : List Business
  categories : List Category
  version : Option DatasetVersion
deriving DecidableEq, Repr

/-! ## Entity Cache and Version Store operations

`cacheService.ts` is not among the sources; these operations are modelled
from the contracts in spec sections 4.1 and 4.2. -/

/-- Modelled from the spec: `upsertBusiness` of the Entity Cache
(spec section 4.2, the `updateCachedBusiness` called by App.tsx):
insert if id unseen, else overwrite by id. -/
def upsertBusiness (l : List Business) (b : Business) : List Business :=
  if l.any (fun x => decide (x.id = b.id)) then
    l.map (fun x => if x.id = b.id then b else x)
  else l ++ [b]

/-- Modelled from the spec: `deleteBusiness` of the Entity Cache
(spec section 4.2, the `deleteCachedBusiness` called by App.tsx):
remove by id, a no-op if the id is unseen. -/
def deleteBusiness (l : List Business) (i : String) : List Business :=
  l.filter (fun x => decide (x.id ≠ i))

/-- Modelled from the spec: `set` of the Version Store (spec section 4.1, the
`setLocalVersion` called by App.tsx): overwrite the persisted record. -/
def setLocalVersion (st : CacheState) (v : DatasetVersion) : CacheState :=
  { st with version := some v }

/-! ## Sync Engine (`smartSync`, spec section 4.3)

`smartSync` lives in the missing `cacheService.ts`; it is modelled from the
algorithm of spec section 4.3.  The two capabilities are modelled by their
outcomes: `fetchVersion` by an `Option RemoteVersion` (`none` is a
network/auth failure) and `fetchAll` by the payload it would deliver. -/

/-- The action tag of a `SyncResult`. -/
inductive SyncAction
  | no_change
  | synced
deriving DecidableEq, Repr

/-- Modelled from the spec: the `SyncResult` returned by `smartSync`
(spec section 4.3). -/
structure SyncResult where
  action : SyncAction
  fromCache : Bool
  categories : List Category
  businesses : List Business
deriving DecidableEq, Repr

/-- Modelled from the spec: `smartSync(fetchVersion, fetchAll)` of
spec section 4.3.  Steps: read the local version; call `fetchVersion` and on
failure return the Entity Cache contents tagged `no_change, fromCache`;
compare on `(businessCount, categoryCount, fingerprint)` and skip when equal;
otherwise take the `fetchAll` payload, write it through the Entity Cache and
the Version Store, and return it tagged `synced`.  Total by construction: no
failure escapes to the caller. -/
def smartSync (st : CacheState) (fetchVersion : Option RemoteVersion)
    (fetchAll : List Category × List Business) (now : Nat) :
    SyncResult × CacheState :=
  match fetchVersion with
  | none =>
    ({ action := .no_change, fromCache := true,
       categories := st.categories, businesses := st.businesses }, st)
  | some remote =>
    match st.version with
    | some localV =>
      if localV.businessCount = remote.businessCount ∧
          localV.categoryCount = remote.categoryCount ∧
          localV.fingerprint = remote.fingerprint then
        ({ action := .no_change, fromCache := true,
           categories := st.categories, businesses := st.businesses }, st)
      else
        ({ action := .synced, fromCache := false,
           categories := fetchAll.1, businesses := fetchAll.2 },
         { businesses := fetchAll.2, categories := fetchAll.1,
           version := some (withSync remote now) })
    | none =>
      ({ action := .synced, fromCache := false,
         categories := fetchAll.1, businesses := fetchAll.2 },
       { businesses := fetchAll.2, categories := fetchAll.1,
         version := some (withSync remote now) })

/-! ## Change Stream Adapter (App.tsx lines 787-833) -/

/-- A change-stream payload as inspected by the handler: the event type
string, the decoded new record (`dbBusinessToBusiness(payload.new)` — the
decode is a pure record translation, so the payload carries the decoded
`Business`), and `payload.old.id`. -/
structure ChangePayload where
  eventType : String
  newRec : Option Business
  oldId : Option String
deriving DecidableEq, Repr

/-- The event-application part of the subscription handler (App.tsx lines
796-816): given the in-memory list (`prev.businesses`) and the cached
businesses, apply one INSERT/UPDATE/DELETE event to both.  Returns the new
in-memory list and the new cached list. -/
def applyChange (ui : List Business) (bs : List Business) (p : ChangePayload) :
    List Business × List Business :=
  if p.eventType = "INSERT" then
    match p.newRec with
    | some nb => (nb :: ui, upsertBusiness bs nb)
    | none => (ui, bs)
  else if p.eventType = "UPDATE" then
    match p.newRec with
    | some ub =>
      (ui.map (fun b => if b.id = ub.id then ub else b), upsertBusiness bs ub)
    | none => (ui, bs)
  else if p.eventType = "DELETE" then
    match p.oldId with
    | some i => (ui.filter (fun b => decide (b.id ≠ i)), deleteBusiness bs i)
    | none => (ui, bs)
  else (ui, bs)

/-- The version-refresh step of the subscription handler (App.tsx lines
818-827): fetch a fresh version and persist it with `last_sync = Date.now()`;
a fetch failure is caught and logged, leaving the stored version unchanged. -/
def refreshVersion (st : CacheState) (fetched : Option RemoteVersion)
    (now : Nat) : CacheState :=
  match fetched with
  | some v => setLocalVersion st (withSync v now)
  | none => st

/-- The app state the subscription handler touches: the in-memory business
list of the React state plus the persisted cache state. -/
structure AppState where
  ui : List Business
  cache : CacheState
deriving DecidableEq, Repr

/-- The whole subscription handler (App.tsx lines 787-833): apply the event
to the in-memory list and the Entity Cache, then refresh the Version Store
from a fresh `getDataVersion` fetch (`fetched`, `none` on failure). -/
def handleChange (st : AppState) (p : ChangePayload)
    (fetched : Option RemoteVersion) (now : Nat) : AppState :=
  let r := applyChange st.ui st.cache.businesses p
  { ui := r.1,
    cache := refreshVersion { st.cache with businesses := r.2 } fetched now }

/-- An UPDATE payload for record `b`. -/
def updateEvent (b : Business) : ChangePayload :=
  { eventType := "UPDATE", newRec := some b, oldId := none }

/-- A DELETE payload for id `i`. -/
def deleteEvent (i : String) : ChangePayload :=
  { eventType := "DELETE", newRec := none, oldId := some i }

/-! ## Concrete sample inputs used to evaluate the definitions -/

/-- A network-first request: a scripted API path on the app origin. -/
def sampleApiReq : Request :=
  { method := "GET", origin := "https://example.com", pathname := "/api/data" }

/-- A cache-first (static asset) request. -/
def sampleStaticReq : Request :=
  { method := "GET", origin := "https://example.com", pathname := "/styles.css" }

/-- A request to the Supabase data endpoint. -/
def sampleSupabaseReq : Request :=
  { method := "GET", origin := "https://abc.supabase.co",
    pathname := "/rest/v1/businesses" }

/-- A successful response. -/
def sampleResp : Response := { status := 200, body := "ok" }

/-- A sample business record with id "1". -/
def sampleBiz : Business :=
  { id := "1", shopName := "Shop", ownerName := "Owner",
    contactNumber := "9999988888", category := "kirana" }

/-! ## Helper lemmas -/

/-- Replacing by id is idempotent on the mapped list. -/
lemma replace_map_idem (l : List Business) (b : Business) :
    (l.map (fun x => if x.id = b.id then b else x)).map
        (fun x => if x.id = b.id then b else x) =
      l.map (fun x => if x.id = b.id then b else x) := by
  induction l with
  | nil => rfl
  | cons x xs ih =>
    by_cases h : x.id = b.id <;> simp [h, ih]

/-- Replacing by an id that occurs nowhere in the list is the identity. -/
lemma map_replace_of_not_mem (l : List Business) (b : Business)
    (h : ∀ x ∈ l, x.id ≠ b.id) :
    l.map (fun x => if x.id = b.id then b else x) = l := by
  induction l with
  | nil => rfl
  | cons x xs ih =>
    simp [h x (by simp), ih (fun y hy => h y (by simp [hy]))]

/-- Upserting the same record twice equals upserting it once. -/
lemma upsert_idem (l : List Business) (b : Business) :
    upsertBusiness (upsertBusiness l b) b = upsertBusiness l b := by
  cases hb : l.any (fun x => decide (x.id = b.id)) with
  | true =>
    have h2 : (l.map (fun x => if x.id = b.id then b else x)).any
        (fun x => decide (x.id = b.id)) = true := by
      rcases List.any_eq_true.mp hb with ⟨x, hx, hid⟩
      refine List.any_eq_true.mpr ⟨b, List.mem_map.mpr ⟨x, hx, ?_⟩, by simp⟩
      simp [of_decide_eq_true hid]
    simp only [upsertBusiness, hb, h2, if_true]
    exact replace_map_idem l b
  | false =>
    have hmem : ∀ x ∈ l, x.id ≠ b.id := by
      intro x hx hid
      have hx2 : l.any (fun x => decide (x.id = b.id)) = true :=
        List.any_eq_true.mpr ⟨x, hx, by simp [hid]⟩
      rw [hb] at hx2
      exact Bool.false_ne_true hx2
    have h2 : (l ++ [b]).any (fun x => decide (x.id = b.id)) = true :=
      List.any_eq_true.mpr ⟨b, by simp, by simp⟩
    simp only [upsertBusiness, hb, h2, if_true, Bool.false_eq_true, if_false]
    simp [map_replace_of_not_mem l b hmem]

/-- Membership after a `cachePut`: the fresh entry or an old one. -/
lemma mem_cachePut {c : RuntimeCache} {r : Request} {resp : Response}
    {p : Request × Response} (hp : p ∈ cachePut c r resp) :
    p = (r, resp) ∨ p ∈ c := by
  simp only [cachePut, List.mem_cons, List.mem_filter] at hp
  rcases hp with h | h
  · exact Or.inl h
  · exact Or.inr h.1

/-! ## Claim theorems -/

/-- C1: when the `fetchVersion` capability fails, `smartSync` returns the
current Entity Cache contents tagged `action = no_change, fromCache = true`,
leaves the cache state untouched, and — being a total function — surfaces no
hard failure to the caller. -/
theorem smartSync_fetchVersion_failure (st : CacheState)
    (fetchAll : List Category × List Business) (now : Nat) :
    smartSync st none fetchAll now =
      ({ action := .no_change, fromCache := true,
         categories := st.categories, businesses := st.businesses }, st) := rfl

/-- C2: a network-first GET request whose fetch fails and for which a cached
response exists for the exact request is answered with that cached response,
with the runtime cache unchanged. -/
theorem networkFirst_fallback_cached (cache : RuntimeCache)
    (net : Request → Option Response) (req : Request) (resp : Response)
    (hm : req.method = "GET")
    (hs : strIncludes req.origin "supabase.co" = false)
    (hnf : isNetworkFirst req = true) (hnet : net req = none)
    (hc : cacheMatch cache req = some resp) :
    handleFetch cache net req = (.respond (some resp), cache) := by
  simp [handleFetch, hm, hs, hnf, hnet, hc]

/-- Witness for C2 at a concrete API request with a cached 200 response. -/
theorem networkFirst_fallback_cached_witness :
    handleFetch [(sampleApiReq, sampleResp)] (fun _ => none) sampleApiReq =
      (.respond (some sampleResp), [(sampleApiReq, sampleResp)]) :=
  networkFirst_fallback_cached _ _ _ _ (by decide) (by decide) (by decide)
    rfl (by decide)

/-- C3 counterexample: at a network-first request whose fetch fails and with
an empty runtime cache, the handler does not reject (propagate the failure):
it responds with the resolved-but-absent cache lookup. -/
theorem networkFirst_no_cache_cex :
    handleFetch [] (fun _ => none) sampleApiReq = (.respond none, []) ∧
      FetchOutcome.respond none ≠ FetchOutcome.reject := by
  exact ⟨by decide, by decide⟩

/-- C3 amended: a network-first request whose fetch fails and for which no
cached response exists is answered with the result of the cache lookup,
which is `none`: the respondWith promise resolves with no response rather
than rejecting. -/
theorem networkFirst_no_cache_responds_none (cache : RuntimeCache)
    (net : Request → Option Response) (req : Request)
    (hm : req.method = "GET")
    (hs : strIncludes req.origin "supabase.co" = false)
    (hnf : isNetworkFirst req = true) (hnet : net req = none)
    (hc : cacheMatch cache req = none) :
    handleFetch cache net req = (.respond none, cache) := by
  simp [handleFetch, hm, hs, hnf, hnet, hc]

/-- Witness for the amended C3 at a concrete API request. -/
theorem networkFirst_no_cache_responds_none_witness :
    handleFetch [] (fun _ => none) sampleApiReq = (.respond none, []) :=
  networkFirst_no_cache_responds_none [] _ sampleApiReq (by decide) (by decide)
    (by decide) rfl rfl

/-- C4: after the subscription handler runs on any change-stream event, when
the fresh `getDataVersion` fetch succeeds with `v`, the stored version is
exactly `v` stamped with the current time — the fingerprint reflects the
state including the applied event. -/
theorem changeStream_refreshes_version (st : AppState) (p : ChangePayload)
    (v : RemoteVersion) (now : Nat) :
    (handleChange st p (some v) now).cache.version =
      some (withSync v now) := rfl

/-- C5: applying the same UPDATE event twice — to the in-memory list and the
cached businesses together — yields exactly the state of applying it once:
the replace-by-id merge is idempotent. -/
theorem update_event_idempotent (ui bs : List Business) (b : Business) :
    applyChange (applyChange ui bs (updateEvent b)).1
        (applyChange ui bs (updateEvent b)).2 (updateEvent b) =
      applyChange ui bs (updateEvent b) := by
  simp [applyChange, updateEvent, replace_map_idem, upsert_idem]
  intro a ha h
  by_cases hab : a.id = b.id
  · simp [hab]
  · rw [if_neg hab] at h
    exact absurd h hab

/-- C6: a DELETE event whose id occurs neither in the in-memory list nor in
the cached businesses leaves both unchanged — and, the function being total,
raises no error. -/
theorem delete_absent_noop (ui bs : List Business) (i : String)
    (hui : ∀ b ∈ ui, b.id ≠ i) (hbs : ∀ b ∈ bs, b.id ≠ i) :
    applyChange ui bs (deleteEvent i) = (ui, bs) := by
  simp [applyChange, deleteEvent, deleteBusiness]
  exact ⟨hui, hbs⟩

/-- Witness for C6: deleting the absent id "2" from singleton lists holding
only id "1". -/
theorem delete_absent_noop_witness :
    applyChange [sampleBiz] [sampleBiz] (deleteEvent "2") =
      ([sampleBiz], [sampleBiz]) :=
  delete_absent_noop [sampleBiz] [sampleBiz] "2" (by decide) (by decide)

/-- C7: for a cache-first GET request (not excluded, not network-first), a
cached response is returned as-is with the cache unchanged — for every
network behaviour, hence without consulting the network — and when no cached
response exists the request is fetched and a 200 response is written through
to the runtime cache before being returned. -/
theorem cacheFirst_behavior (cache : RuntimeCache)
    (net : Request → Option Response) (req : Request)
    (hm : req.method = "GET")
    (hs : strIncludes req.origin "supabase.co" = false)
    (hnf : isNetworkFirst req = false) :
    (∀ resp, cacheMatch cache req = some resp →
        handleFetch cache net req = (.respond (some resp), cache)) ∧
    (cacheMatch cache req = none → ∀ resp, net req = some resp →
        resp.status = 200 →
        handleFetch cache net req =
          (.respond (some resp), cachePut cache req resp)) := by
  constructor
  · intro resp hc
    simp [handleFetch, hm, hs, hnf, hc]
  · intro hc resp hnet h200
    simp [handleFetch, hm, hs, hnf, hc, hnet, h200]

/-- Witness for C7: a cached static asset is served from the cache. -/
theorem cacheFirst_behavior_witness :
    handleFetch [(sampleStaticReq, sampleResp)] (fun _ => none)
        sampleStaticReq =
      (.respond (some sampleResp), [(sampleStaticReq, sampleResp)]) :=
  (cacheFirst_behavior [(sampleStaticReq, sampleResp)] (fun _ => none)
      sampleStaticReq (by decide) (by decide) (by decide)).1
    sampleResp (by decide)

/-- C8: a request whose origin contains "supabase.co" is never intercepted:
the handler passes it through (no respondWith) and leaves the runtime cache
untouched, whatever the method, path, cache and network. -/
theorem supabase_never_intercepted (cache : RuntimeCache)
    (net : Request → Option Response) (req : Request)
    (hs : strIncludes req.origin "supabase.co" = true) :
    handleFetch cache net req = (.passThrough, cache) := by
  by_cases hm : req.method = "GET"
  · simp [handleFetch, hm, hs]
  · simp [handleFetch, hm]

/-- Witness for C8: a GET to the Supabase REST endpoint passes through. -/
theorem supabase_never_intercepted_witness :
    handleFetch [] (fun _ => some sampleResp) sampleSupabaseReq =
      (.passThrough, []) :=
  supabase_never_intercepted [] _ sampleSupabaseReq (by decide)

/-- C9: after the activate listener deletes its deletion list, a cache name
survives exactly when it existed before and is one of the two current
generation names. -/
theorem activate_leaves_only_current (names : List String) (n : String) :
    n ∈ afterActivate names ↔
      n ∈ names ∧ (n = CACHE_NAME ∨ n = RUNTIME_CACHE) := by
  simp only [afterActivate, activateDeletes, List.mem_filter,
    Bool.not_eq_true', decide_eq_false_iff_not, Bool.and_eq_true,
    decide_eq_true_eq, not_and, not_not]
  tauto

/-- C10: every entry of the runtime cache after one run of the fetch handler
either was already present or has status exactly 200: the handler writes only
200 responses through. -/
theorem runtime_cache_writes_only_200 (cache : RuntimeCache)
    (net : Request → Option Response) (req : Request) (p : Request × Response)
    (hp : p ∈ (handleFetch cache net req).2) :
    p ∈ cache ∨ p.2.status = 200 := by
  unfold handleFetch at hp
  split at hp
  · exact Or.inl hp
  split at hp
  · exact Or.inl hp
  split at hp
  · split at hp
    · split at hp
      · rcases mem_cachePut hp with h | h
        · right
          rw [h]
          assumption
        · exact Or.inl h
      · exact Or.inl hp
    · exact Or.inl hp
  · split at hp
    · exact Or.inl hp
    · split at hp
      · split at hp
        · rcases mem_cachePut hp with h | h
          · right
            rw [h]
            assumption
          · exact Or.inl h
        · exact Or.inl hp
      · exact Or.inl hp

/-- Witness for C10: fetching a fresh 200 response writes exactly it into the
runtime cache. -/
theorem runtime_cache_writes_only_200_witness :
    (sampleApiReq, sampleResp) ∈
        (handleFetch [] (fun _ => some sampleResp) sampleApiReq).2 ∧
      ((sampleApiReq, sampleResp) ∈ ([] : RuntimeCache) ∨
        sampleResp.status = 200) :=
  ⟨by decide,
    runtime_cache_writes_only_200 [] (fun _ => some sampleResp) sampleApiReq
      (sampleApiReq, sampleResp) (by decide)⟩

end Jawala
